import Mathlib

/-!
Shallow embedding of torba/basenetwork.py.

The module defines ClientSession (dispatch of unsolicited push messages to
subscription controllers, disconnect signalling) and BaseNetwork (the failover
loop of start, stop, is_connected, and the rpc facade with its wire methods).
Pure data flow is embedded as Lean functions; the side effects of the failover
loop (session creation, event firing, logging of attempts) are embedded as a
deterministic state machine driven by per-iteration environment events.
-/

namespace Torba

/-- A positional argument of a wire RPC call: the facade passes strings
(addresses, transaction hashes, raw transactions, version strings), integers
(heights, counts), and the boolean True that subscribe_headers sends. -/
inductive Arg where
  | str (s : String)
  | num (n : Int)
  | bool (b : Bool)
deriving DecidableEq, Repr

/-- A wire message: the (method, args) pair handed to send_request for outgoing
calls, and the request object seen by ClientSession.handle_request for incoming
pushes. -/
structure Request where
  method : String
  args : List Arg
deriving DecidableEq, Repr

/-- Modelled from the spec: the aiorpcx session underlying ClientSession is an
external collaborator (section 6, outbound interface). We record the server it
was created for, a creation serial number that tells distinct session objects
apart, whether its transport was established, and whether its one-shot
disconnect notification has fired (section 3, Session). -/
structure Session where
  host : String
  port : Nat
  sid : Nat
  connected : Bool
  disconnectFired : Bool
deriving DecidableEq, Repr

/-- Modelled from the spec: is_closing of the underlying transport is true when
no live transport exists, in particular once the disconnect notification has
fired (sections 3 and 4.3: isConnected is true iff the transport of the active
session is not already closing). -/
def Session.is_closing (s : Session) : Bool :=
  !s.connected || s.disconnectFired

/-- The mutable fields of BaseNetwork read and written by the facade, stop and
the failover loop: self.client and self.running. -/
structure NetworkState where
  client : Option Session
  running : Bool
deriving DecidableEq, Repr

/-- BaseNetwork.is_connected: self.client is not None and not
self.client.is_closing(). -/
def is_connected (n : NetworkState) : Bool :=
  match n.client with
  | none => false
  | some c => !c.is_closing

/-- The ConnectionError raised by BaseNetwork.rpc when the connection is not
available (the spec calls it ConnectionUnavailable). -/
inductive RpcError where
  | connectionUnavailable
deriving DecidableEq, Repr

/-- BaseNetwork.rpc: when connected it forwards (list_or_method, args) to the
active session via send_request — modelled by returning the forwarded request —
otherwise it raises ConnectionError without touching any session. -/
def rpc (n : NetworkState) (method : String) (args : List Arg) :
    Except RpcError Request :=
  if is_connected n then Except.ok { method := method, args := args }
  else Except.error RpcError.connectionUnavailable

/-- True when an rpc call was forwarded to send_request rather than failing. -/
def rpcForwarded : Except RpcError Request → Bool
  | Except.ok _ => true
  | Except.error _ => false

/-- Modelled from the spec: torba __version__ (imported by basenetwork.py from
the torba package, not part of this core) is the version string of the client
itself; its concrete value is irrelevant to the network layer. -/
def torba_version : String := "torba-client"

/-- Default of the required parameter of BaseNetwork.ensure_server_version. -/
def ensure_server_version_default : String := "1.2"

/-- BaseNetwork.ensure_server_version: rpc server.version with the version of
the client itself and the required version as positional args; no version
comparison is done locally. -/
def ensure_server_version (n : NetworkState) (required : String) :
    Except RpcError Request :=
  rpc n "server.version" [Arg.str torba_version, Arg.str required]

/-- BaseNetwork.broadcast. -/
def broadcast (n : NetworkState) (raw_transaction : String) :
    Except RpcError Request :=
  rpc n "blockchain.transaction.broadcast" [Arg.str raw_transaction]

/-- BaseNetwork.get_history. -/
def get_history (n : NetworkState) (address : String) :
    Except RpcError Request :=
  rpc n "blockchain.address.get_history" [Arg.str address]

/-- BaseNetwork.get_transaction. -/
def get_transaction (n : NetworkState) (tx_hash : String) :
    Except RpcError Request :=
  rpc n "blockchain.transaction.get" [Arg.str tx_hash]

/-- BaseNetwork.get_merkle. -/
def get_merkle (n : NetworkState) (tx_hash : String) (height : Int) :
    Except RpcError Request :=
  rpc n "blockchain.transaction.get_merkle" [Arg.str tx_hash, Arg.num height]

/-- Default of the count parameter of BaseNetwork.get_headers. -/
def get_headers_default_count : Int := 10000

/-- BaseNetwork.get_headers; a call without an explicit count uses
get_headers_default_count. -/
def get_headers (n : NetworkState) (height count : Int) :
    Except RpcError Request :=
  rpc n "blockchain.block.headers" [Arg.num height, Arg.num count]

/-- BaseNetwork.subscribe_headers: note the positional argument True that the
source supplies itself. -/
def subscribe_headers (n : NetworkState) : Except RpcError Request :=
  rpc n "blockchain.headers.subscribe" [Arg.bool true]

/-- BaseNetwork.subscribe_address. -/
def subscribe_address (n : NetworkState) (address : String) :
    Except RpcError Request :=
  rpc n "blockchain.address.subscribe" [Arg.str address]

/-- BaseNetwork.stop: set self.running to False; if currently connected, close
the active client and await its disconnect notification (so the retained client
reference ends with its disconnect fired and its transport closing). -/
def stop (n : NetworkState) : NetworkState :=
  let n1 : NetworkState := { client := n.client, running := false }
  if is_connected n1 then
    { client := Option.map (fun c => { c with disconnectFired := true }) n1.client,
      running := false }
  else n1

/-- A StreamController from torba.stream as used here: push events are added in
arrival order and delivered to the consumers of its stream in that order. -/
structure StreamController where
  events : List (List Arg)
deriving DecidableEq, Repr

/-- StreamController.add: publish one payload to the channel. -/
def StreamController.add (c : StreamController) (args : List Arg) :
    StreamController :=
  { events := c.events ++ [args] }

/-- The two channels that BaseNetwork.__init__ builds:
_on_header_controller and _on_status_controller. -/
structure Controllers where
  header : StreamController
  status : StreamController
deriving DecidableEq, Repr

/-- Identifies which controller a subscription_controllers entry refers to. -/
inductive Channel where
  | header
  | status
deriving DecidableEq, Repr

/-- The subscription_controllers dict built once in BaseNetwork.__init__:
blockchain.headers.subscribe maps to the header controller and
blockchain.address.subscribe to the status controller; lookup of any other
key has no entry. -/
def subscription_controllers_lookup (m : String) : Option Channel :=
  if m = "blockchain.headers.subscribe" then some Channel.header
  else if m = "blockchain.address.subscribe" then some Channel.status
  else none

/-- The KeyError raised by a failed dict lookup in handle_request. -/
inductive HandleError where
  | keyError (method : String)
deriving DecidableEq, Repr

/-- ClientSession.handle_request: controller =
network.subscription_controllers[request.method]; controller.add(request.args).
The dict indexing raises KeyError when the method has no entry. -/
def handle_request (cs : Controllers) (req : Request) :
    Except HandleError Controllers :=
  match subscription_controllers_lookup req.method with
  | some Channel.header => Except.ok { cs with header := cs.header.add req.args }
  | some Channel.status => Except.ok { cs with status := cs.status.add req.args }
  | none => Except.error (HandleError.keyError req.method)

/-- The environment of one iteration of the failover loop of BaseNetwork.start:
whether create_connection succeeds, whether the ensure_server_version rpc
succeeds (relevant only after a successful connect), and whether a stop was
requested during the iteration (stop is what sets running to False; it also
closes the client, which is one way the awaited disconnect fires). -/
structure IterEnv where
  connectOk : Bool
  versionOk : Bool
  stopDuring : Bool
deriving DecidableEq, Repr

/-- The state of the failover loop of BaseNetwork.start, together with the
observable history the claims speak about: servers attempted (in order), sids
of the sessions created, counts of connected events fired and of version
checks issued. -/
structure LoopState where
  pool : List (String × Nat)
  idx : Nat
  nextSid : Nat
  running : Bool
  client : Option Session
  connectedFires : Nat
  versionChecks : Nat
  attempted : List (String × Nat)
  createdSids : List Nat
deriving DecidableEq, Repr

/-- The server that cycle(self.config[..]) yields at position n. -/
def cycleGet (pool : List (String × Nat)) (n : Nat) : String × Nat :=
  pool.getD (n % pool.length) ("", 0)

/-- One iteration of the for body of BaseNetwork.start: a fresh ClientSession
is created for the current server of the cycle and becomes self.client; then
create_connection is attempted, on success the server.version rpc is issued, on
success of both the connected event fires and the loop awaits the disconnect
notification of the session (so on the success path the session has its
disconnect fired by the time the iteration ends); any failure is caught and
logged. Finally running reflects whether a stop was requested. -/
def iterate (st : LoopState) (e : IterEnv) : LoopState :=
  let server := cycleGet st.pool st.idx
  let sess : Session :=
    { host := server.1, port := server.2, sid := st.nextSid,
      connected := e.connectOk,
      disconnectFired := e.connectOk && e.versionOk }
  { pool := st.pool
    idx := st.idx + 1
    nextSid := st.nextSid + 1
    running := st.running && !e.stopDuring
    client := some sess
    connectedFires := st.connectedFires + (if e.connectOk && e.versionOk then 1 else 0)
    versionChecks := st.versionChecks + (if e.connectOk then 1 else 0)
    attempted := st.attempted ++ [server]
    createdSids := st.createdSids ++ [st.nextSid] }

/-- The loop of BaseNetwork.start over a (finite prefix of the) sequence of
iteration environments. The Bool is true when the loop returned via the
`if not self.running: return` check; false means the environment prefix was
exhausted with the loop still going. -/
def runLoop : LoopState → List IterEnv → LoopState × Bool
  | st, [] => (st, false)
  | st, e :: rest =>
    if (iterate st e).running then runLoop (iterate st e) rest
    else (iterate st e, true)

/-- The loop state right after BaseNetwork.start sets self.running = True. -/
def initState (pool : List (String × Nat)) : LoopState :=
  { pool := pool, idx := 0, nextSid := 0, running := true, client := none,
    connectedFires := 0, versionChecks := 0, attempted := [], createdSids := [] }

/-- BaseNetwork.start: running = True, then `for server in cycle(pool)` — on an
empty pool the cycle is empty, the body never runs, and start returns at once;
otherwise the loop processes iteration environments. The Bool records whether
start returned within the supplied environment prefix. -/
def start_run (pool : List (String × Nat)) (envs : List IterEnv) :
    LoopState × Bool :=
  if pool.isEmpty then (initState pool, true)
  else runLoop (initState pool) envs

/-- The servers attempted by n consecutive loop iterations beginning at cycle
position start. -/
def attemptedServers (pool : List (String × Nat)) (start n : Nat) :
    List (String × Nat) :=
  match n with
  | 0 => []
  | m + 1 => cycleGet pool start :: attemptedServers pool (start + 1) m

/-- A network state with a live connected session, for concrete evaluation. -/
def netConnected : NetworkState :=
  { client := some { host := "spv1", port := 50001, sid := 0,
                     connected := true, disconnectFired := false },
    running := true }

/-- A network state with no session at all, for concrete evaluation. -/
def netDisconnected : NetworkState :=
  { client := none, running := false }

/-- Empty controllers as built by BaseNetwork.__init__. -/
def cs0 : Controllers :=
  { header := { events := [] }, status := { events := [] } }

/-- An iteration environment where the connect fails and no stop is requested. -/
def envNoStop : IterEnv :=
  { connectOk := false, versionOk := false, stopDuring := false }

/-- C2: every facade operation fails immediately with the
ConnectionUnavailable error whenever is_connected is false — no request is
forwarded to any session — and forwards to send_request of the active session
whenever is_connected is true. -/
theorem rpc_fail_fast_facade (n : NetworkState) (raw addr txh saddr : String)
    (height count : Int) :
    (is_connected n = false →
      broadcast n raw = Except.error RpcError.connectionUnavailable ∧
      get_history n addr = Except.error RpcError.connectionUnavailable ∧
      get_transaction n txh = Except.error RpcError.connectionUnavailable ∧
      get_merkle n txh height = Except.error RpcError.connectionUnavailable ∧
      get_headers n height count = Except.error RpcError.connectionUnavailable ∧
      subscribe_headers n = Except.error RpcError.connectionUnavailable ∧
      subscribe_address n saddr = Except.error RpcError.connectionUnavailable) ∧
    (is_connected n = true →
      rpcForwarded (broadcast n raw) = true ∧
      rpcForwarded (get_history n addr) = true ∧
      rpcForwarded (get_transaction n txh) = true ∧
      rpcForwarded (get_merkle n txh height) = true ∧
      rpcForwarded (get_headers n height count) = true ∧
      rpcForwarded (subscribe_headers n) = true ∧
      rpcForwarded (subscribe_address n saddr) = true) := by
  refine ⟨fun h => ?_, fun h => ?_⟩ <;>
    simp [broadcast, get_history, get_transaction, get_merkle, get_headers,
      subscribe_headers, subscribe_address, rpc, rpcForwarded, h]

/-- C2 witness: get_history in a disconnected state fails with
ConnectionUnavailable, and in a connected state the call is forwarded. -/
theorem rpc_fail_fast_facade_witness :
    get_history netDisconnected "a1" = Except.error RpcError.connectionUnavailable ∧
    rpcForwarded (get_history netConnected "a1") = true :=
  ⟨((rpc_fail_fast_facade netDisconnected "t" "a1" "h" "a2" 0 0).1 rfl).2.1,
   ((rpc_fail_fast_facade netConnected "t" "a1" "h" "a2" 0 0).2 rfl).2.1⟩

/-- C8 counterexample: subscribe_headers does not send only caller-supplied
positional args — the source itself supplies the positional argument True, so
the request carries a non-empty argument list although the caller passed no
arguments. -/
theorem subscribe_headers_extra_true_arg :
    subscribe_headers netConnected =
      Except.ok { method := "blockchain.headers.subscribe", args := [Arg.bool true] } ∧
    ([Arg.bool true] : List Arg) ≠ [] := by
  constructor
  · rfl
  · simp

/-- C8 amended: when connected, every facade operation sends exactly the wire
method of the external-interface table with the positional args of the caller,
except that subscribe_headers sends blockchain.headers.subscribe with the
single positional argument True supplied by the source itself. -/
theorem facade_wire_methods (n : NetworkState) (h : is_connected n = true)
    (raw addr txh saddr : String) (height count : Int) :
    broadcast n raw =
      Except.ok { method := "blockchain.transaction.broadcast", args := [Arg.str raw] } ∧
    get_history n addr =
      Except.ok { method := "blockchain.address.get_history", args := [Arg.str addr] } ∧
    get_transaction n txh =
      Except.ok { method := "blockchain.transaction.get", args := [Arg.str txh] } ∧
    get_merkle n txh height =
      Except.ok { method := "blockchain.transaction.get_merkle",
                  args := [Arg.str txh, Arg.num height] } ∧
    get_headers n height count =
      Except.ok { method := "blockchain.block.headers",
                  args := [Arg.num height, Arg.num count] } ∧
    subscribe_headers n =
      Except.ok { method := "blockchain.headers.subscribe", args := [Arg.bool true] } ∧
    subscribe_address n saddr =
      Except.ok { method := "blockchain.address.subscribe", args := [Arg.str saddr] } := by
  simp [broadcast, get_history, get_transaction, get_merkle, get_headers,
    subscribe_headers, subscribe_address, rpc, h]

/-- C8 witness: the wire methods at a concrete connected state. -/
theorem facade_wire_methods_witness :
    broadcast netConnected "rawtx" =
      Except.ok { method := "blockchain.transaction.broadcast", args := [Arg.str "rawtx"] } :=
  (facade_wire_methods netConnected rfl "rawtx" "a1" "h" "a2" 3 7).1

/-- C9: ensure_server_version issues the server.version rpc with the version
of the client itself and the required version (default 1.2) as positional
args, performing no local comparison — for every required string the call
succeeds when connected, with the outcome left to the reply of the server —
and when not connected it fails like any other rpc call. -/
theorem ensure_server_version_forwards_rpc (n : NetworkState) (required : String) :
    (is_connected n = true →
      ensure_server_version n required =
        Except.ok { method := "server.version",
                    args := [Arg.str torba_version, Arg.str required] }) ∧
    (is_connected n = false →
      ensure_server_version n required =
        Except.error RpcError.connectionUnavailable) ∧
    ensure_server_version_default = "1.2" := by
  refine ⟨fun h => ?_, fun h => ?_, rfl⟩ <;> simp [ensure_server_version, rpc, h]

/-- C9 witness: ensure_server_version at concrete connected and disconnected
states. -/
theorem ensure_server_version_forwards_rpc_witness :
    ensure_server_version netConnected "1.2" =
      Except.ok { method := "server.version",
                  args := [Arg.str torba_version, Arg.str "1.2"] } ∧
    ensure_server_version netDisconnected "1.2" =
      Except.error RpcError.connectionUnavailable :=
  ⟨(ensure_server_version_forwards_rpc netConnected "1.2").1 rfl,
   (ensure_server_version_forwards_rpc netDisconnected "1.2").2.1 rfl⟩

/-- C10: called without an explicit count, get_headers requests exactly 10000
headers: blockchain.block.headers with positional args (height, 10000). -/
theorem get_headers_default_count_10000 (n : NetworkState) (height : Int)
    (h : is_connected n = true) :
    get_headers_default_count = 10000 ∧
    get_headers n height get_headers_default_count =
      Except.ok { method := "blockchain.block.headers",
                  args := [Arg.num height, Arg.num 10000] } := by
  refine ⟨rfl, ?_⟩
  simp [get_headers, rpc, h, get_headers_default_count]

/-- C10 witness: get_headers with the default count at a concrete state. -/
theorem get_headers_default_count_10000_witness :
    get_headers netConnected 5 get_headers_default_count =
      Except.ok { method := "blockchain.block.headers",
                  args := [Arg.num 5, Arg.num 10000] } :=
  (get_headers_default_count_10000 netConnected 5 rfl).2

/-- C1 counterexample: dispatching an unsolicited push whose method is not a
registered subscription topic does not drop it silently — the dict lookup in
handle_request raises a KeyError. -/
theorem handle_request_unknown_method_not_dropped :
    handle_request cs0 { method := "blockchain.unknown.topic", args := [] } =
      Except.error (HandleError.keyError "blockchain.unknown.topic") := by
  rfl

/-- C1 amended: an unsolicited push whose method is not one of the two
registered subscription topics makes handle_request fail with a KeyError for
that method; the failure leaves both channels untouched, so the dispatch of
other messages is unaffected. -/
theorem handle_request_unknown_method_errors (cs : Controllers) (m : String)
    (args : List Arg)
    (h1 : m ≠ "blockchain.headers.subscribe")
    (h2 : m ≠ "blockchain.address.subscribe") :
    handle_request cs { method := m, args := args } =
      Except.error (HandleError.keyError m) := by
  simp [handle_request, subscription_controllers_lookup, h1, h2]

/-- C1 amended witness: a concrete unregistered method. -/
theorem handle_request_unknown_method_errors_witness :
    handle_request cs0 { method := "blockchain.scripthash.subscribe", args := [] } =
      Except.error (HandleError.keyError "blockchain.scripthash.subscribe") :=
  handle_request_unknown_method_errors cs0 "blockchain.scripthash.subscribe" []
    (by decide) (by decide)

/-- C5: the routing table fixed at construction has exactly two topics —
a push for blockchain.headers.subscribe is published (with its positional
args, in arrival order) to the header channel, a push for
blockchain.address.subscribe to the address-status channel, and no other
method has an entry. -/
theorem subscription_controllers_fixed_two_topics (cs : Controllers)
    (args : List Arg) :
    handle_request cs { method := "blockchain.headers.subscribe", args := args } =
      Except.ok { cs with header := { events := cs.header.events ++ [args] } } ∧
    handle_request cs { method := "blockchain.address.subscribe", args := args } =
      Except.ok { cs with status := { events := cs.status.events ++ [args] } } ∧
    subscription_controllers_lookup "blockchain.headers.subscribe" = some Channel.header ∧
    subscription_controllers_lookup "blockchain.address.subscribe" = some Channel.status ∧
    (∀ m, m ≠ "blockchain.headers.subscribe" → m ≠ "blockchain.address.subscribe" →
      subscription_controllers_lookup m = none) := by
  refine ⟨?_, ?_, rfl, rfl, fun m h1 h2 => ?_⟩
  · simp [handle_request, subscription_controllers_lookup, StreamController.add]
  · simp [handle_request, subscription_controllers_lookup, StreamController.add]
  · simp [subscription_controllers_lookup, h1, h2]

/-- C5 witness: lookup of an unregistered topic has no entry (discharging the
quantified disequality hypotheses at a concrete method). -/
theorem subscription_controllers_fixed_two_topics_witness :
    subscription_controllers_lookup "blockchain.estimatefee" = none :=
  (subscription_controllers_fixed_two_topics cs0 []).2.2.2.2
    "blockchain.estimatefee" (by decide) (by decide)

/-- C4: after stop resolves, is_connected is false and the retained client
reference, if any, is a session whose transport is closing (no live session
remains); a second stop returns without error and leaves the state unchanged. -/
theorem stop_idempotent_no_live_session (n : NetworkState) :
    is_connected (stop n) = false ∧
    (match (stop n).client with
     | none => True
     | some c => c.is_closing = true) ∧
    stop (stop n) = stop n := by
  obtain ⟨cl, r⟩ := n
  cases cl with
  | none => simp [stop, is_connected]
  | some c =>
    obtain ⟨ho, po, si, co, di⟩ := c
    cases co <;> cases di <;>
      simp [stop, is_connected, Session.is_closing]

/-- The loop returns through the `if not self.running` check only: whenever
runLoop reports termination, running is false in the final state. -/
theorem runLoop_exit_running (envs : List IterEnv) :
    ∀ st : LoopState, (runLoop st envs).2 = true → (runLoop st envs).1.running = false := by
  induction envs with
  | nil =>
    intro st h
    simp [runLoop] at h
  | cons e rest ih =>
    intro st h
    simp only [runLoop] at h ⊢
    by_cases hr : (iterate st e).running = true
    · rw [if_pos hr] at h ⊢
      exact ih _ h
    · rw [if_neg hr]
      simp only [Bool.not_eq_true] at hr
      exact hr

/-- A run in which no stop is requested never terminates and logs exactly the
cyclic sequence of attempted servers. -/
theorem runLoop_no_stop (envs : List IterEnv) :
    ∀ st : LoopState, st.running = true → (∀ e ∈ envs, e.stopDuring = false) →
      (runLoop st envs).2 = false ∧
      (runLoop st envs).1.running = true ∧
      (runLoop st envs).1.attempted =
        st.attempted ++ attemptedServers st.pool st.idx envs.length := by
  induction envs with
  | nil =>
    intro st hrun hns
    simp [runLoop, attemptedServers, hrun]
  | cons e rest ih =>
    intro st hrun hns
    have he : e.stopDuring = false := hns e (List.mem_cons_self e rest)
    have hrest : ∀ x ∈ rest, x.stopDuring = false :=
      fun x hx => hns x (List.mem_cons_of_mem e hx)
    have hr1 : (iterate st e).running = true := by simp [iterate, hrun, he]
    have step := ih (iterate st e) hr1 hrest
    simp only [runLoop]
    rw [if_pos hr1]
    refine ⟨step.1, step.2.1, ?_⟩
    rw [step.2.2]
    simp [iterate, attemptedServers, List.append_assoc]

/-- Every cycle position within the length of a no-stop run is attempted. -/
theorem cycleGet_mem_attemptedServers (pool : List (String × Nat)) :
    ∀ (n start k : Nat), k < n →
      cycleGet pool (start + k) ∈ attemptedServers pool start n := by
  intro n
  induction n with
  | zero =>
    intro start k hk
    exact absurd hk (Nat.not_lt_zero k)
  | succ m ih =>
    intro start k hk
    cases k with
    | zero =>
      simp [attemptedServers]
    | succ j =>
      have hj : j < m := Nat.lt_of_succ_lt_succ hk
      have hmem := ih (start + 1) j hj
      have harith : start + (j + 1) = start + 1 + j := by omega
      simp only [attemptedServers]
      rw [harith]
      exact List.mem_cons_of_mem _ hmem

/-- Once at least pool.length positions have been attempted from position 0,
every pool entry has been attempted. -/
theorem pool_subset_attemptedServers (pool : List (String × Nat)) (n : Nat)
    (hn : pool.length ≤ n) :
    ∀ s ∈ pool, s ∈ attemptedServers pool 0 n := by
  intro s hs
  obtain ⟨i, hi, hget⟩ := List.mem_iff_getElem.mp hs
  have hcg : cycleGet pool i = s := by
    simp only [cycleGet, Nat.mod_eq_of_lt hi]
    rw [List.getD_eq_getElem _ _ hi]
    exact hget
  have hmem := cycleGet_mem_attemptedServers pool n 0 i (Nat.lt_of_lt_of_le hi hn)
  rw [Nat.zero_add, hcg] at hmem
  exact hmem

/-- Session freshness invariant of the loop: the sids of the created sessions
are exactly 0, 1, ..., nextSid - 1 (so no sid is ever created twice), and the
client is either absent or the single most recently created session. -/
theorem runLoop_client_fresh (envs : List IterEnv) :
    ∀ st : LoopState,
      st.createdSids = List.range st.nextSid →
      (st.client = none ∨ ∃ s, st.client = some s ∧ s.sid + 1 = st.nextSid) →
      (runLoop st envs).1.createdSids = List.range (runLoop st envs).1.nextSid ∧
      ((runLoop st envs).1.client = none ∨
        ∃ s, (runLoop st envs).1.client = some s ∧
          s.sid + 1 = (runLoop st envs).1.nextSid) := by
  induction envs with
  | nil =>
    intro st h1 h2
    simpa [runLoop] using ⟨h1, h2⟩
  | cons e rest ih =>
    intro st h1 h2
    have h1' : (iterate st e).createdSids = List.range (iterate st e).nextSid := by
      simp [iterate, h1, List.range_succ]
    have h2' : (iterate st e).client = none ∨
        ∃ s, (iterate st e).client = some s ∧ s.sid + 1 = (iterate st e).nextSid := by
      exact Or.inr ⟨_, rfl, rfl⟩
    simp only [runLoop]
    by_cases hr : (iterate st e).running = true
    · rw [if_pos hr]
      exact ih _ h1' h2'
    · rw [if_neg hr]
      exact ⟨h1', h2'⟩

/-- C3 counterexample: with an empty configured server pool, cycle() over it is
empty, so start returns at once — the loop terminates although the stop flag
was never set (running is still true in the final state). -/
theorem start_empty_pool_terminates_without_stop :
    (start_run [] []).2 = true ∧ (start_run [] []).1.running = true := by
  exact ⟨rfl, rfl⟩

/-- C3 amended: for a non-empty configured server pool and every sequence of
connection-attempt outcomes, the failover loop advances cyclically through the
pool (with no stop requested, the attempted-server log is exactly the cyclic
sequence, and once at least pool-many attempts have run every pool entry has
been attempted), and the loop terminates only when the stop flag has been set
(running = false). -/
theorem start_failover_loop_cycles (pool : List (String × Nat))
    (envs : List IterEnv) (hp : pool ≠ []) :
    ((start_run pool envs).2 = true → (start_run pool envs).1.running = false) ∧
    ((∀ e ∈ envs, e.stopDuring = false) →
      (start_run pool envs).1.attempted = attemptedServers pool 0 envs.length) ∧
    ((∀ e ∈ envs, e.stopDuring = false) → pool.length ≤ envs.length →
      ∀ s ∈ pool, s ∈ (start_run pool envs).1.attempted) := by
  have hpe : pool.isEmpty = false := by
    cases pool with
    | nil => exact absurd rfl hp
    | cons a l => rfl
  have hsr : start_run pool envs = runLoop (initState pool) envs := by
    simp [start_run, hpe]
  rw [hsr]
  refine ⟨runLoop_exit_running envs (initState pool), fun hns => ?_, fun hns hlen s hs => ?_⟩
  · have h := runLoop_no_stop envs (initState pool) rfl hns
    simpa [initState] using h.2.2
  · have h := runLoop_no_stop envs (initState pool) rfl hns
    rw [h.2.2]
    simp only [initState, List.nil_append]
    exact pool_subset_attemptedServers pool envs.length hlen s hs

/-- C3 witness: with pool [a, b] and two failing no-stop attempts, the second
pool entry is among the attempted servers. -/
theorem start_failover_loop_cycles_witness :
    ("b", 2) ∈ (start_run [("a", 1), ("b", 2)] [envNoStop, envNoStop]).1.attempted :=
  (start_failover_loop_cycles [("a", 1), ("b", 2)] [envNoStop, envNoStop]
      (by decide)).2.2 (by decide) (by decide) ("b", 2) (by decide)

/-- C6: an attempt whose connect succeeds and whose server.version check fails
performs the version check (one more server.version rpc issued), does not fire
the connected event, and only fails that attempt: the loop goes on to process
the remaining iterations rather than terminating; on a failed connect no
version check is performed at all. -/
theorem version_check_after_connect (st : LoopState) (rest : List IterEnv)
    (h : st.running = true) :
    (iterate st { connectOk := true, versionOk := false, stopDuring := false }).versionChecks
        = st.versionChecks + 1 ∧
    (iterate st { connectOk := true, versionOk := false, stopDuring := false }).connectedFires
        = st.connectedFires ∧
    runLoop st ({ connectOk := true, versionOk := false, stopDuring := false } :: rest)
        = runLoop (iterate st { connectOk := true, versionOk := false, stopDuring := false }) rest ∧
    (∀ v sd, (iterate st { connectOk := false, versionOk := v, stopDuring := sd }).versionChecks
        = st.versionChecks) := by
  refine ⟨by simp [iterate], by simp [iterate], ?_, fun v sd => by simp [iterate]⟩
  have hr : (iterate st
      { connectOk := true, versionOk := false, stopDuring := false }).running = true := by
    simp [iterate, h]
  simp only [runLoop]
  rw [if_pos hr]

/-- C6 witness: a version-check failure at the initial loop state fires no
connected event. -/
theorem version_check_after_connect_witness :
    (iterate (initState [("a", 1)])
        { connectOk := true, versionOk := false, stopDuring := false }).connectedFires
      = (initState [("a", 1)]).connectedFires :=
  (version_check_after_connect (initState [("a", 1)]) [] rfl).2.1

/-- C7: the client field holds at most one session; the sessions created by the
loop have pairwise distinct serial numbers (each iteration creates a fresh one,
never reusing an earlier session), and in every reachable state the client is
either absent or exactly the most recently created session — never an earlier
session whose disconnect notification has fired. -/
theorem single_session_fresh_per_iteration (pool : List (String × Nat))
    (envs : List IterEnv) :
    (start_run pool envs).1.createdSids = List.range (start_run pool envs).1.nextSid ∧
    (start_run pool envs).1.createdSids.Nodup ∧
    ((start_run pool envs).1.client = none ∨
      ∃ s, (start_run pool envs).1.client = some s ∧
        s.sid + 1 = (start_run pool envs).1.nextSid) := by
  by_cases hp : pool.isEmpty
  · simp [start_run, hp, initState]
  · have hpe : pool.isEmpty = false := by simpa using hp
    have hsr : start_run pool envs = runLoop (initState pool) envs := by
      simp [start_run, hpe]
    rw [hsr]
    have h := runLoop_client_fresh envs (initState pool) rfl (Or.inl rfl)
    refine ⟨h.1, ?_, h.2⟩
    rw [h.1]
    exact List.nodup_range _

end Torba
